import Mathlib

/-!
Verification of the event-and-configuration bridge of the CorvusPrint slicer.

This file gives a shallow embedding of the subsystems under
`src/libslic3r` and `src/slic3r/Network`:

* `SlicingEventDispatcher` (SlicingEventDispatcher.hpp) — multi-sink fan-out
  of slicing lifecycle events;
* `ConfigChangeDispatcher` (ConfigChangeDispatcher.hpp) — the config change
  bus with weak listeners and raw callbacks;
* `MqttConfigPublisher` (MqttConfigPublisher.cpp/.hpp) — topic routing,
  JSON envelope serialization, printer-preset publishing;
* `HttpSlicerApi` (HttpSlicerApi.cpp/.hpp) — the REST handlers and the
  status cache.

Machine values: C++ `double` fields are embedded as `Rat` (every claim under
study only compares them for equality against exactly representable
sentinels); shared pointers are embedded as `Option Nat` where `none` is the
null pointer and `some p` identifies the pointee; `weak_ptr` entries are
`Option Nat` where `none` is an expired reference at the time of the call.
-/

namespace CorvusPrint

/-- Tagged dynamic value carried by `boost::any` in the source.  The
constructors are exactly the cases tested by
`MqttConfigPublisher::serialize_value` (MqttConfigPublisher.cpp:153-198);
`other` stands for any type outside that list, which the source renders as
`"value":null,"type":"unknown"`. -/
inductive AnyValue where
  | bool (b : Bool)
  | int (i : Int)
  | float (f : Rat)
  | string (s : String)
  | strings (vs : List String)
  | floats (vs : List Rat)
  | ints (vs : List Int)
  | other
deriving DecidableEq, Repr

/-! ## Slicing event data (SlicingEvents.hpp) -/

/-- Modelled from the spec: `PrintBase::SlicingStatus` is declared in
PrintBase.hpp, which is outside this repository.  Per spec section 3 it is a
snapshot with integer `percent`, free-form `text`, opaque integer `flags`
and a `warning_step` enumerant; these are exactly the four fields read by
`status_to_json` (HttpSlicerApi.cpp:42-68). -/
structure SlicingStatus where
  percent : Int
  text : String
  flags : Int
  warning_step : Int
deriving DecidableEq, Repr

/-- Completion status enum of `SlicingCompletedInfo` (SlicingEvents.hpp:15-19). -/
inductive CompletedStatus where
  | finished
  | cancelled
  | error
deriving DecidableEq, Repr

/-- `SlicingCompletedInfo` (SlicingEvents.hpp:14-31). -/
structure SlicingCompletedInfo where
  status : CompletedStatus
  error_message : String
  error_object_ids : List Nat
  critical_error : Bool
  invalidate_plater : Bool
deriving DecidableEq, Repr

/-- One slicing lifecycle event, i.e. one invocation of one of the five
methods of `ISlicingEventSink` (SlicingEvents.hpp:49-71). -/
inductive SlicingEvent where
  | slicing_update (status : SlicingStatus)
  | slicing_completed (timestamp : Int)
  | process_finished (info : SlicingCompletedInfo)
  | export_began
  | export_finished (path : String)
deriving DecidableEq, Repr

/-! ## SlicingEventDispatcher (SlicingEventDispatcher.hpp)

A sink reference (`SlicingEventSinkPtr`, a `shared_ptr`) is `Option Nat`:
`none` is the null pointer, `some p` identifies the sink object `p`. -/

abbrev SinkPtr := Option Nat

/-- The state of `SlicingEventDispatcher`: the `m_sinks` vector
(SlicingEventDispatcher.hpp:96). -/
structure DispatcherState where
  sinks : List SinkPtr
deriving DecidableEq, Repr

/-- `SlicingEventDispatcher::add_sink` (SlicingEventDispatcher.hpp:27-31):
a null sink is discarded, otherwise the sink is appended. -/
def add_sink (st : DispatcherState) (s : SinkPtr) : DispatcherState :=
  if s.isNone then st else ⟨st.sinks ++ [s]⟩

/-- `SlicingEventDispatcher::remove_sink` (SlicingEventDispatcher.hpp:35-41):
erase-remove of every reference equal to `s`, order of the rest preserved. -/
def remove_sink (st : DispatcherState) (s : SinkPtr) : DispatcherState :=
  ⟨st.sinks.filter (fun x => x ≠ s)⟩

/-- `SlicingEventDispatcher::clear_sinks` (SlicingEventDispatcher.hpp:45-48). -/
def clear_sinks (_st : DispatcherState) : DispatcherState :=
  ⟨[]⟩

/-- `SlicingEventDispatcher::sink_count` (SlicingEventDispatcher.hpp:51-54). -/
def sink_count (st : DispatcherState) : Nat :=
  st.sinks.length

/-- The body shared by all five event methods
(SlicingEventDispatcher.hpp:59-92): iterate `m_sinks` in order and, guarded
by `if (sink)`, invoke the corresponding method on each sink.  The result is
the ordered list of performed invocations. -/
def dispatch (st : DispatcherState) (ev : SlicingEvent) : List (Nat × SlicingEvent) :=
  st.sinks.filterMap (fun s => s.map (fun p => (p, ev)))

/-- `on_slicing_update` (SlicingEventDispatcher.hpp:59-64). -/
def on_slicing_update (st : DispatcherState) (status : SlicingStatus) :
    List (Nat × SlicingEvent) :=
  dispatch st (.slicing_update status)

/-- `on_slicing_completed` (SlicingEventDispatcher.hpp:66-71). -/
def on_slicing_completed (st : DispatcherState) (timestamp : Int) :
    List (Nat × SlicingEvent) :=
  dispatch st (.slicing_completed timestamp)

/-- `on_process_finished` (SlicingEventDispatcher.hpp:73-78). -/
def on_process_finished (st : DispatcherState) (info : SlicingCompletedInfo) :
    List (Nat × SlicingEvent) :=
  dispatch st (.process_finished info)

/-- `on_export_began` (SlicingEventDispatcher.hpp:80-85). -/
def on_export_began (st : DispatcherState) : List (Nat × SlicingEvent) :=
  dispatch st .export_began

/-- `on_export_finished` (SlicingEventDispatcher.hpp:87-92). -/
def on_export_finished (st : DispatcherState) (path : String) :
    List (Nat × SlicingEvent) :=
  dispatch st (.export_finished path)

/-- One mutating call on the dispatcher. -/
inductive DispatcherOp where
  | add (s : SinkPtr)
  | remove (s : SinkPtr)
  | clear
deriving DecidableEq, Repr

/-- Apply one mutating call. -/
def applyOp (st : DispatcherState) (op : DispatcherOp) : DispatcherState :=
  match op with
  | .add s => add_sink st s
  | .remove s => remove_sink st s
  | .clear => clear_sinks st

/-- Apply a sequence of mutating calls, oldest first. -/
def applyOps (st : DispatcherState) (ops : List DispatcherOp) : DispatcherState :=
  ops.foldl applyOp st

/-! ## ConfigChangeDispatcher (ConfigChangeDispatcher.hpp) -/

/-- The state of `ConfigChangeDispatcher`: `m_listeners` (weak references,
`none` when expired at the time of the next notify), `m_callbacks`
(`none` for a null `std::function`), and `m_enabled`
(ConfigChangeDispatcher.hpp:89-91). -/
structure BusState where
  listeners : List (Option Nat)
  callbacks : List (Option Nat)
  enabled : Bool
deriving DecidableEq, Repr

/-- `ConfigChangeDispatcher::add_listener` (ConfigChangeDispatcher.hpp:42-44). -/
def add_listener (st : BusState) (l : Option Nat) : BusState :=
  { st with listeners := st.listeners ++ [l] }

/-- `ConfigChangeDispatcher::add_callback` (ConfigChangeDispatcher.hpp:47-49). -/
def add_callback (st : BusState) (c : Option Nat) : BusState :=
  { st with callbacks := st.callbacks ++ [c] }

/-- `ConfigChangeDispatcher::clear` (ConfigChangeDispatcher.hpp:73-76). -/
def bus_clear (st : BusState) : BusState :=
  { st with listeners := [], callbacks := [] }

/-- `ConfigChangeDispatcher::set_enabled` (ConfigChangeDispatcher.hpp:79). -/
def set_enabled (st : BusState) (b : Bool) : BusState :=
  { st with enabled := b }

/-- `ConfigChangeDispatcher::is_enabled` (ConfigChangeDispatcher.hpp:80). -/
def is_enabled (st : BusState) : Bool :=
  st.enabled

/-- The listener loop of `notify` (ConfigChangeDispatcher.hpp:54-62): walk
the entries in order; an alive entry is called and kept, an expired entry is
erased in place.  Returns the surviving list and the ordered invocations. -/
def sweep : List (Option Nat) → List (Option Nat) × List Nat
  | [] => ([], [])
  | none :: rest => sweep rest
  | some l :: rest =>
      let r := sweep rest
      (some l :: r.1, l :: r.2)

/-- The callback loop of `notify` (ConfigChangeDispatcher.hpp:65-69): invoke
every non-null callback in registration order. -/
def run_callbacks : List (Option Nat) → List Nat
  | [] => []
  | none :: rest => run_callbacks rest
  | some c :: rest => c :: run_callbacks rest

/-- Result of one `notify` call: the bus state after the call, the
`on_config_change` invocations in order, then the callback invocations in
order. -/
structure NotifyResult where
  state : BusState
  listener_calls : List (Nat × String × AnyValue)
  callback_calls : List (Nat × String × AnyValue)
deriving DecidableEq, Repr

/-- `ConfigChangeDispatcher::notify` (ConfigChangeDispatcher.hpp:52-70).
Note that the source never consults `m_enabled` here: the body runs the
listener sweep and the callback loop unconditionally. -/
def notify (st : BusState) (opt_key : String) (value : AnyValue) : NotifyResult :=
  let s := sweep st.listeners
  { state := { st with listeners := s.1 }
  , listener_calls := s.2.map (fun l => (l, opt_key, value))
  , callback_calls := (run_callbacks st.callbacks).map (fun c => (c, opt_key, value)) }

/-! ## MqttConfigPublisher (MqttConfigPublisher.cpp/.hpp) -/

/-- The anonymous-namespace `json_escape` helper of MqttConfigPublisher.cpp
(lines 10-26). -/
def mqtt_json_escape (s : String) : String :=
  String.join (s.data.map (fun c =>
    if c = '\"' then "\\\""
    else if c = '\\' then "\\\\"
    else if c = '\x08' then "\\b"
    else if c = '\x0c' then "\\f"
    else if c = '\n' then "\\n"
    else if c = '\x0d' then "\\r"
    else if c = '\t' then "\\t"
    else String.singleton c))

/-- Stand-in for the C++ iostream rendering of a `double` (with
`setprecision(6)` where the source requests it).  The exact digit string is
not the subject of any claim; only that the same number renders the same
way, which any function satisfies. -/
def render_num (q : Rat) : String :=
  toString q

/-- One message handed to `mosquitto_publish` (MqttConfigPublisher.cpp:267-272):
full topic (prefix already concatenated), payload, QoS, retained flag. -/
structure OutMsg where
  topic : String
  payload : String
  qos : Nat
  retained : Bool
deriving DecidableEq, Repr

/-- The connection-relevant state of `MqttConfigPublisher`:
`has_client` is `m_mosq != nullptr`, `connected` is `m_connected`, and `pfx`
is `m_topic_prefix` (default `"slicer/"`, MqttConfigPublisher.hpp:122-124). -/
structure MqttState where
  has_client : Bool
  connected : Bool
  pfx : String
deriving DecidableEq, Repr

/-- `MqttConfigPublisher::publish` (MqttConfigPublisher.cpp:261-275).
`enq` models the success of the `mosquitto_publish` enqueue.  Returns the
boolean result of the call and the list of messages actually handed to the
MQTT client (empty when the guard `!m_mosq || !m_connected` fires). -/
def publish (st : MqttState) (enq : OutMsg → Bool) (topic payload : String)
    (retained : Bool) : Bool × List OutMsg :=
  if st.has_client ∧ st.connected then
    let m : OutMsg := ⟨st.pfx ++ topic, payload, 1, retained⟩
    (enq m, [m])
  else
    (false, [])

/-- The messages emitted by one `publish` call, independent of the enqueue
result (the callers in the source all discard the boolean). -/
def publish_msgs (st : MqttState) (topic payload : String) (retained : Bool) :
    List OutMsg :=
  if st.has_client ∧ st.connected then
    [⟨st.pfx ++ topic, payload, 1, retained⟩]
  else
    []

/-- `ConfigOptionDef` as consumed by `serialize_value`
(MqttConfigPublisher.cpp:205-255): label, category, tooltip, sidetext
(unit), numeric min and max, optional enum key map, enum values and enum
labels.  The numeric bounds are C++ `double`; the sentinels compared against
(`INT_MIN`, `INT_MAX`, `FLT_MAX`) are exactly representable, so `Rat` is a
faithful carrier for these comparisons. -/
structure OptDef where
  label : String
  category : String
  tooltip : String
  sidetext : String
  min : Rat
  max : Rat
  enum_keys_map : Option (List (String × Int))
  enum_values : List String
  enum_labels : List String
deriving DecidableEq, Repr

/-- `INT_MIN` converted to double. -/
def INT_MIN_D : Rat := -(2 ^ 31)

/-- `INT_MAX` converted to double. -/
def INT_MAX_D : Rat := 2 ^ 31 - 1

/-- `FLT_MAX` converted to double: `(2 - 2^-23) * 2^127 = 2^128 - 2^104`. -/
def FLT_MAX_D : Rat := 2 ^ 128 - 2 ^ 104

/-- One field of the `meta` JSON object, in the order `serialize_value`
emits them (MqttConfigPublisher.cpp:205-255). -/
inductive MetaField where
  | label (s : String)
  | category (s : String)
  | tooltip (s : String)
  | unit (s : String)
  | min (q : Rat)
  | max (q : Rat)
  | options (l : List (String × Int))
  | enum_values (l : List String)
  | enum_labels (l : List String)
deriving DecidableEq, Repr

/-- The sequence of `meta` fields emitted for a definition, transcribing the
conditionals of MqttConfigPublisher.cpp:205-252: label, category and tooltip
always; `unit` when sidetext is non-empty; `min` when it differs from both
`INT_MIN` and `-FLT_MAX`; `max` when it differs from both `INT_MAX` and
`FLT_MAX`; then the enum fields when non-empty. -/
def meta_fields (d : OptDef) : List MetaField :=
  [MetaField.label d.label, MetaField.category d.category, MetaField.tooltip d.tooltip]
  ++ (if d.sidetext ≠ "" then [MetaField.unit d.sidetext] else [])
  ++ (if d.min ≠ INT_MIN_D ∧ d.min ≠ -FLT_MAX_D then [MetaField.min d.min] else [])
  ++ (if d.max ≠ INT_MAX_D ∧ d.max ≠ FLT_MAX_D then [MetaField.max d.max] else [])
  ++ (match d.enum_keys_map with
      | some m => if m ≠ [] then [MetaField.options m] else []
      | none => [])
  ++ (if d.enum_values ≠ [] then [MetaField.enum_values d.enum_values] else [])
  ++ (if d.enum_labels ≠ [] then [MetaField.enum_labels d.enum_labels] else [])

/-- Join rendered items with commas (the `if (i > 0) json << ","` idiom). -/
def join_comma (l : List String) : String :=
  String.intercalate "," l

/-- Render one `meta` field exactly as the ostream writes it; every field
other than the leading `label` carries its separating comma. -/
def render_meta_field : MetaField → String
  | .label s => "\"label\":\"" ++ mqtt_json_escape s ++ "\""
  | .category s => ",\"category\":\"" ++ mqtt_json_escape s ++ "\""
  | .tooltip s => ",\"tooltip\":\"" ++ mqtt_json_escape s ++ "\""
  | .unit s => ",\"unit\":\"" ++ mqtt_json_escape s ++ "\""
  | .min q => ",\"min\":" ++ render_num q
  | .max q => ",\"max\":" ++ render_num q
  | .options l =>
      ",\"options\":[" ++
        join_comma (l.map (fun kv =>
          "\x7b\"key\":\"" ++ mqtt_json_escape kv.1 ++ "\",\"value\":" ++ toString kv.2 ++ "\x7d"))
        ++ "]"
  | .enum_values l =>
      ",\"enum_values\":[" ++
        join_comma (l.map (fun s => "\"" ++ mqtt_json_escape s ++ "\"")) ++ "]"
  | .enum_labels l =>
      ",\"enum_labels\":[" ++
        join_comma (l.map (fun s => "\"" ++ mqtt_json_escape s ++ "\"")) ++ "]"

/-- The `,"meta":{...}` suffix emitted when the registry returned a
definition (MqttConfigPublisher.cpp:205-255). -/
def serialize_meta (d : OptDef) : String :=
  ",\"meta\":\x7b" ++ String.join ((meta_fields d).map render_meta_field) ++ "\x7d"

/-- The `"value":...,"type":"..."` part of the envelope, one case per
dynamic tag (MqttConfigPublisher.cpp:152-198).  The `boost::bad_any_cast`
branch is unreachable here because the tag test and the cast use the same
tag. -/
def render_value : AnyValue → String
  | .bool b => "\"value\":" ++ (if b then "true" else "false") ++ ",\"type\":\"bool\""
  | .int i => "\"value\":" ++ toString i ++ ",\"type\":\"int\""
  | .float q => "\"value\":" ++ render_num q ++ ",\"type\":\"float\""
  | .string s => "\"value\":\"" ++ mqtt_json_escape s ++ "\",\"type\":\"string\""
  | .strings vs =>
      "\"value\":[" ++ join_comma (vs.map (fun s => "\"" ++ mqtt_json_escape s ++ "\""))
        ++ "],\"type\":\"strings\""
  | .floats vs =>
      "\"value\":[" ++ join_comma (vs.map render_num) ++ "],\"type\":\"floats\""
  | .ints vs =>
      "\"value\":[" ++ join_comma (vs.map toString) ++ "],\"type\":\"ints\""
  | .other => "\"value\":null,\"type\":\"unknown\""

/-- `MqttConfigPublisher::serialize_value` (MqttConfigPublisher.cpp:144-259).
`reg` models the external schema registry `print_config_def.get`. -/
def serialize_value (reg : String → Option OptDef) (opt_key : String)
    (value : AnyValue) : String :=
  "\x7b\"key\":\"" ++ mqtt_json_escape opt_key ++ "\"," ++ render_value value
  ++ (match reg opt_key with
      | some d => serialize_meta d
      | none => "")
  ++ "\x7d"

/-- The routing table built by `MqttConfigPublisher::init_topic_map`
(MqttConfigPublisher.cpp:660-949), one `(key, page, group)` triple per
assignment, in source order.  The 232 keys are pairwise distinct, so
association-list lookup agrees with the `unordered_map`. -/
def init_topic_map : List (String × String × String) := [
  ("layer_height", "quality", "layer_height"),
  ("initial_layer_print_height", "quality", "layer_height"),
  ("line_width", "quality", "line_width"),
  ("initial_layer_line_width", "quality", "line_width"),
  ("outer_wall_line_width", "quality", "line_width"),
  ("inner_wall_line_width", "quality", "line_width"),
  ("top_surface_line_width", "quality", "line_width"),
  ("sparse_infill_line_width", "quality", "line_width"),
  ("internal_solid_infill_line_width", "quality", "line_width"),
  ("support_line_width", "quality", "line_width"),
  ("seam_position", "quality", "seam"),
  ("seam_placement_away_from_overhangs", "quality", "seam"),
  ("seam_gap", "quality", "seam"),
  ("seam_slope_conditional", "quality", "seam"),
  ("scarf_angle_threshold", "quality", "seam"),
  ("seam_slope_entire_loop", "quality", "seam"),
  ("seam_slope_steps", "quality", "seam"),
  ("seam_slope_inner_walls", "quality", "seam"),
  ("override_filament_scarf_seam_setting", "quality", "seam"),
  ("seam_slope_type", "quality", "seam"),
  ("seam_slope_start_height", "quality", "seam"),
  ("seam_slope_gap", "quality", "seam"),
  ("seam_slope_min_length", "quality", "seam"),
  ("wipe_speed", "quality", "seam"),
  ("role_base_wipe_speed", "quality", "seam"),
  ("slice_closing_radius", "quality", "precision"),
  ("resolution", "quality", "precision"),
  ("enable_arc_fitting", "quality", "precision"),
  ("xy_hole_compensation", "quality", "precision"),
  ("xy_contour_compensation", "quality", "precision"),
  ("enable_circle_compensation", "quality", "precision"),
  ("circle_compensation_manual_offset", "quality", "precision"),
  ("elefant_foot_compensation", "quality", "precision"),
  ("precise_outer_wall", "quality", "precision"),
  ("precise_z_height", "quality", "precision"),
  ("ironing_type", "quality", "ironing"),
  ("ironing_pattern", "quality", "ironing"),
  ("ironing_speed", "quality", "ironing"),
  ("ironing_flow", "quality", "ironing"),
  ("ironing_spacing", "quality", "ironing"),
  ("ironing_inset", "quality", "ironing"),
  ("ironing_direction", "quality", "ironing"),
  ("wall_generator", "quality", "wall_generator"),
  ("wall_transition_angle", "quality", "wall_generator"),
  ("wall_transition_filter_deviation", "quality", "wall_generator"),
  ("wall_transition_length", "quality", "wall_generator"),
  ("wall_distribution_count", "quality", "wall_generator"),
  ("min_bead_width", "quality", "wall_generator"),
  ("min_feature_size", "quality", "wall_generator"),
  ("wall_sequence", "quality", "advanced"),
  ("is_infill_first", "quality", "advanced"),
  ("bridge_flow", "quality", "advanced"),
  ("thick_bridges", "quality", "advanced"),
  ("print_flow_ratio", "quality", "advanced"),
  ("top_solid_infill_flow_ratio", "quality", "advanced"),
  ("initial_layer_flow_ratio", "quality", "advanced"),
  ("top_one_wall_type", "quality", "advanced"),
  ("top_area_threshold", "quality", "advanced"),
  ("only_one_wall_first_layer", "quality", "advanced"),
  ("detect_overhang_wall", "quality", "advanced"),
  ("smooth_speed_discontinuity_area", "quality", "advanced"),
  ("smooth_coefficient", "quality", "advanced"),
  ("reduce_crossing_wall", "quality", "advanced"),
  ("max_travel_detour_distance", "quality", "advanced"),
  ("avoid_crossing_wall_includes_support", "quality", "advanced"),
  ("z_direction_outwall_speed_continuous", "quality", "advanced"),
  ("wall_loops", "strength", "walls"),
  ("embedding_wall_into_infill", "strength", "walls"),
  ("detect_thin_wall", "strength", "walls"),
  ("interface_shells", "strength", "top_bottom_shells"),
  ("top_surface_pattern", "strength", "top_bottom_shells"),
  ("top_shell_layers", "strength", "top_bottom_shells"),
  ("top_shell_thickness", "strength", "top_bottom_shells"),
  ("top_color_penetration_layers", "strength", "top_bottom_shells"),
  ("bottom_surface_pattern", "strength", "top_bottom_shells"),
  ("bottom_shell_layers", "strength", "top_bottom_shells"),
  ("bottom_shell_thickness", "strength", "top_bottom_shells"),
  ("bottom_color_penetration_layers", "strength", "top_bottom_shells"),
  ("infill_instead_top_bottom_surfaces", "strength", "top_bottom_shells"),
  ("internal_solid_infill_pattern", "strength", "top_bottom_shells"),
  ("sparse_infill_density", "strength", "sparse_infill"),
  ("fill_multiline", "strength", "sparse_infill"),
  ("sparse_infill_pattern", "strength", "sparse_infill"),
  ("locked_skin_infill_pattern", "strength", "sparse_infill"),
  ("skin_infill_density", "strength", "sparse_infill"),
  ("locked_skeleton_infill_pattern", "strength", "sparse_infill"),
  ("skeleton_infill_density", "strength", "sparse_infill"),
  ("infill_lock_depth", "strength", "sparse_infill"),
  ("skin_infill_depth", "strength", "sparse_infill"),
  ("skin_infill_line_width", "strength", "sparse_infill"),
  ("skeleton_infill_line_width", "strength", "sparse_infill"),
  ("symmetric_infill_y_axis", "strength", "sparse_infill"),
  ("infill_shift_step", "strength", "sparse_infill"),
  ("infill_rotate_step", "strength", "sparse_infill"),
  ("sparse_infill_anchor", "strength", "sparse_infill"),
  ("sparse_infill_anchor_max", "strength", "sparse_infill"),
  ("filter_out_gap_fill", "strength", "sparse_infill"),
  ("infill_wall_overlap", "strength", "advanced"),
  ("infill_direction", "strength", "advanced"),
  ("bridge_angle", "strength", "advanced"),
  ("minimum_sparse_infill_area", "strength", "advanced"),
  ("infill_combination", "strength", "advanced"),
  ("detect_narrow_internal_solid_infill", "strength", "advanced"),
  ("ensure_vertical_shell_thickness", "strength", "advanced"),
  ("detect_floating_vertical_shell", "strength", "advanced"),
  ("initial_layer_speed", "speed", "initial_layer"),
  ("initial_layer_infill_speed", "speed", "initial_layer"),
  ("outer_wall_speed", "speed", "other_layers"),
  ("inner_wall_speed", "speed", "other_layers"),
  ("small_perimeter_speed", "speed", "other_layers"),
  ("small_perimeter_threshold", "speed", "other_layers"),
  ("sparse_infill_speed", "speed", "other_layers"),
  ("internal_solid_infill_speed", "speed", "other_layers"),
  ("vertical_shell_speed", "speed", "other_layers"),
  ("top_surface_speed", "speed", "other_layers"),
  ("enable_overhang_speed", "speed", "other_layers"),
  ("overhang_1_4_speed", "speed", "other_layers"),
  ("overhang_2_4_speed", "speed", "other_layers"),
  ("overhang_3_4_speed", "speed", "other_layers"),
  ("overhang_4_4_speed", "speed", "other_layers"),
  ("overhang_totally_speed", "speed", "other_layers"),
  ("enable_height_slowdown", "speed", "other_layers"),
  ("slowdown_start_height", "speed", "other_layers"),
  ("slowdown_start_speed", "speed", "other_layers"),
  ("slowdown_start_acc", "speed", "other_layers"),
  ("slowdown_end_height", "speed", "other_layers"),
  ("slowdown_end_speed", "speed", "other_layers"),
  ("slowdown_end_acc", "speed", "other_layers"),
  ("bridge_speed", "speed", "other_layers"),
  ("gap_infill_speed", "speed", "other_layers"),
  ("support_speed", "speed", "other_layers"),
  ("support_interface_speed", "speed", "other_layers"),
  ("travel_speed", "speed", "travel"),
  ("default_acceleration", "speed", "acceleration"),
  ("travel_acceleration", "speed", "acceleration"),
  ("initial_layer_travel_acceleration", "speed", "acceleration"),
  ("initial_layer_acceleration", "speed", "acceleration"),
  ("outer_wall_acceleration", "speed", "acceleration"),
  ("inner_wall_acceleration", "speed", "acceleration"),
  ("top_surface_acceleration", "speed", "acceleration"),
  ("sparse_infill_acceleration", "speed", "acceleration"),
  ("accel_to_decel_enable", "speed", "acceleration"),
  ("accel_to_decel_factor", "speed", "acceleration"),
  ("default_jerk", "speed", "jerk"),
  ("outer_wall_jerk", "speed", "jerk"),
  ("inner_wall_jerk", "speed", "jerk"),
  ("infill_jerk", "speed", "jerk"),
  ("top_surface_jerk", "speed", "jerk"),
  ("initial_layer_jerk", "speed", "jerk"),
  ("travel_jerk", "speed", "jerk"),
  ("enable_support", "support", "general"),
  ("support_type", "support", "general"),
  ("support_style", "support", "general"),
  ("support_threshold_angle", "support", "general"),
  ("support_on_build_plate_only", "support", "general"),
  ("support_critical_regions_only", "support", "general"),
  ("support_remove_small_overhang", "support", "general"),
  ("raft_layers", "support", "raft"),
  ("raft_contact_distance", "support", "raft"),
  ("support_filament", "support", "filament"),
  ("support_interface_filament", "support", "filament"),
  ("support_interface_not_for_body", "support", "filament"),
  ("raft_first_layer_density", "support", "advanced"),
  ("raft_first_layer_expansion", "support", "advanced"),
  ("tree_support_wall_count", "support", "advanced"),
  ("support_top_z_distance", "support", "advanced"),
  ("support_bottom_z_distance", "support", "advanced"),
  ("support_base_pattern", "support", "advanced"),
  ("support_base_pattern_spacing", "support", "advanced"),
  ("support_angle", "support", "advanced"),
  ("support_interface_top_layers", "support", "advanced"),
  ("support_interface_bottom_layers", "support", "advanced"),
  ("support_interface_pattern", "support", "advanced"),
  ("support_interface_spacing", "support", "advanced"),
  ("support_bottom_interface_spacing", "support", "advanced"),
  ("support_expansion", "support", "advanced"),
  ("support_object_xy_distance", "support", "advanced"),
  ("top_z_overrides_xy_distance", "support", "advanced"),
  ("support_object_first_layer_gap", "support", "advanced"),
  ("bridge_no_support", "support", "advanced"),
  ("max_bridge_length", "support", "advanced"),
  ("independent_support_layer_height", "support", "advanced"),
  ("tree_support_branch_distance", "support", "tree_support"),
  ("tree_support_branch_diameter", "support", "tree_support"),
  ("tree_support_branch_angle", "support", "tree_support"),
  ("tree_support_branch_diameter_angle", "support", "tree_support"),
  ("skirt_loops", "others", "bed_adhesion"),
  ("skirt_height", "others", "bed_adhesion"),
  ("skirt_distance", "others", "bed_adhesion"),
  ("brim_type", "others", "bed_adhesion"),
  ("brim_width", "others", "bed_adhesion"),
  ("brim_object_gap", "others", "bed_adhesion"),
  ("enable_prime_tower", "others", "prime_tower"),
  ("prime_tower_skip_points", "others", "prime_tower"),
  ("prime_tower_enable_framework", "others", "prime_tower"),
  ("prime_tower_width", "others", "prime_tower"),
  ("prime_tower_max_speed", "others", "prime_tower"),
  ("prime_tower_brim_width", "others", "prime_tower"),
  ("prime_tower_infill_gap", "others", "prime_tower"),
  ("prime_tower_rib_wall", "others", "prime_tower"),
  ("prime_tower_extra_rib_length", "others", "prime_tower"),
  ("prime_tower_rib_width", "others", "prime_tower"),
  ("prime_tower_fillet_wall", "others", "prime_tower"),
  ("flush_into_infill", "others", "flush_options"),
  ("flush_into_objects", "others", "flush_options"),
  ("flush_into_support", "others", "flush_options"),
  ("slicing_mode", "others", "special_mode"),
  ("print_sequence", "others", "special_mode"),
  ("spiral_mode", "others", "special_mode"),
  ("spiral_mode_smooth", "others", "special_mode"),
  ("spiral_mode_max_xy_smoothing", "others", "special_mode"),
  ("timelapse_type", "others", "special_mode"),
  ("fuzzy_skin", "others", "special_mode"),
  ("fuzzy_skin_point_distance", "others", "special_mode"),
  ("fuzzy_skin_thickness", "others", "special_mode"),
  ("enable_wrapping_detection", "others", "advanced"),
  ("interlocking_beam", "others", "advanced"),
  ("mmu_segmented_region_interlocking_depth", "others", "advanced"),
  ("interlocking_beam_width", "others", "advanced"),
  ("interlocking_orientation", "others", "advanced"),
  ("interlocking_beam_layer_count", "others", "advanced"),
  ("interlocking_depth", "others", "advanced"),
  ("interlocking_boundary_avoidance", "others", "advanced"),
  ("sparse_infill_filament", "others", "advanced"),
  ("solid_infill_filament", "others", "advanced"),
  ("wall_filament", "others", "advanced"),
  ("reduce_infill_retraction", "others", "gcode_output"),
  ("gcode_add_line_number", "others", "gcode_output"),
  ("exclude_object", "others", "gcode_output"),
  ("filename_format", "others", "gcode_output"),
  ("post_process", "others", "gcode_output"),
  ("process_notes", "others", "gcode_output")]

/-- `MqttConfigPublisher::get_topic` (MqttConfigPublisher.cpp:134-142):
table hit gives `config/{page}/{group}/{key}`, miss gives
`config/unknown/{key}`. -/
def get_topic (opt_key : String) : String :=
  match init_topic_map.find? (fun e => e.1 = opt_key) with
  | some e => "config/" ++ e.2.1 ++ "/" ++ e.2.2 ++ "/" ++ opt_key
  | none => "config/unknown/" ++ opt_key

/-- `MqttConfigPublisher::publish_change` (MqttConfigPublisher.cpp:277-284):
no-op when not connected, otherwise one retained publish of the serialized
envelope under the routed topic.  Returns the emitted messages. -/
def publish_change (reg : String → Option OptDef) (st : MqttState)
    (opt_key : String) (value : AnyValue) : List OutMsg :=
  if st.connected then
    publish_msgs st (get_topic opt_key) (serialize_value reg opt_key value) true
  else
    []

/-- A `ConfigOption` of the dynamic print config, tagged by
`ConfigOption::type()`.  The constructors cover the cases the source
switches on (MqttConfigPublisher.cpp:298-328, 471-517, 530-575); `other`
stands for any remaining type, with its `is_vector()` answer. -/
inductive ConfigOption where
  | bool (b : Bool)
  | int (i : Int)
  | float (f : Rat)
  | percent (f : Rat)
  | string (s : String)
  | floatOrPercent (f : Rat) (p : Bool)
  | enum (i : Int)
  | floats (vs : List Rat)
  | percents (vs : List Rat)
  | ints (vs : List Int)
  | bools (vs : List Bool)
  | strings (vs : List String)
  | points (vs : List (Rat × Rat))
  | other (vec : Bool)
deriving DecidableEq, Repr

/-- `ConfigOption::is_vector()`. -/
def ConfigOption.is_vector : ConfigOption → Bool
  | .floats _ => true
  | .percents _ => true
  | .ints _ => true
  | .bools _ => true
  | .strings _ => true
  | .points _ => true
  | .other v => v
  | _ => false

/-- Length of the stored vector for the vector types the per-extruder loop
of `publish_printer_config` can read (MqttConfigPublisher.cpp:471-517). -/
def vector_len : ConfigOption → Option Nat
  | .floats vs => some vs.length
  | .percents vs => some vs.length
  | .ints vs => some vs.length
  | .bools vs => some vs.length
  | .strings vs => some vs.length
  | .points vs => some vs.length
  | _ => none

/-- The per-extruder value extraction switch of `publish_printer_config`
(MqttConfigPublisher.cpp:471-517): index into the vector, `none` when the
index is out of range or the type is not handled (`has_value` stays false). -/
def extruder_value_at : ConfigOption → Nat → Option AnyValue
  | .floats vs, i => (vs.get? i).map AnyValue.float
  | .percents vs, i => (vs.get? i).map AnyValue.float
  | .ints vs, i => (vs.get? i).map AnyValue.int
  | .bools vs, i => (vs.get? i).map AnyValue.bool
  | .strings vs, i => (vs.get? i).map AnyValue.string
  | .points vs, i =>
      (vs.get? i).map (fun p => AnyValue.string (render_num p.1 ++ "," ++ render_num p.2))
  | _, _ => none

/-- The scalar conversion switch of the non-extruder branch of
`publish_printer_config` (MqttConfigPublisher.cpp:530-575); `none` when the
default case sets `has_value = false`. -/
def scalar_any_value : ConfigOption → Option AnyValue
  | .bool b => some (AnyValue.bool b)
  | .int i => some (AnyValue.int i)
  | .float f => some (AnyValue.float f)
  | .percent f => some (AnyValue.float f)
  | .string s => some (AnyValue.string s)
  | .floatOrPercent f p =>
      some (AnyValue.string (render_num f ++ if p then "%" else ""))
  | .enum i => some (AnyValue.int i)
  | .floats vs => some (AnyValue.floats vs)
  | .ints vs => some (AnyValue.ints vs)
  | .strings vs => some (AnyValue.strings vs)
  | _ => none

/-- The `extruder_basic_opts` set of `get_extruder_topic_group`
(MqttConfigPublisher.cpp:417-420). -/
def extruder_basic_opts : List String :=
  ["extruder_type", "nozzle_diameter", "nozzle_volume", "extruder_printable_height",
   "extruder_printable_area", "default_nozzle_volume_type", "extruder_offset", "extruder_colour"]

/-- The `extruder_layer_opts` set (MqttConfigPublisher.cpp:421-423). -/
def extruder_layer_opts : List String :=
  ["min_layer_height", "max_layer_height"]

/-- The `extruder_retraction_opts` set (MqttConfigPublisher.cpp:424-430). -/
def extruder_retraction_opts : List String :=
  ["retraction_length", "z_hop", "retract_lift_above", "retract_lift_below",
   "z_hop_types", "retraction_speed", "deretraction_speed", "retract_restart_extra",
   "retraction_minimum_travel", "retract_when_changing_layer", "wipe", "wipe_distance",
   "retract_before_wipe", "retract_length_toolchange", "retract_restart_extra_toolchange",
   "long_retractions_when_cut", "retraction_distances_when_cut"]

/-- `get_extruder_topic_group` (MqttConfigPublisher.cpp:416-436): the empty
string means the key is not per-extruder. -/
def get_extruder_topic_group (opt_key : String) : String :=
  if extruder_basic_opts.contains opt_key then "basic_information"
  else if extruder_layer_opts.contains opt_key then "layer_height_limits"
  else if extruder_retraction_opts.contains opt_key then "retraction"
  else ""

/-- `get_printer_topic` (MqttConfigPublisher.cpp:337-413).  The three
`extruder_*` sets declared at the top of that function are never consulted
by its if-chain, so they do not appear here. -/
def get_printer_topic (opt_key : String) : String :=
  if ["printable_area", "bed_exclude_area", "printable_height",
      "best_object_pos"].contains opt_key then
    "basic_information/printable_space/" ++ opt_key
  else if ["gcode_flavor", "use_relative_e_distances", "use_firmware_retraction",
      "machine_load_filament_time", "machine_unload_filament_time",
      "machine_switch_extruder_time", "machine_hotend_change_time",
      "printer_structure", "scan_first_layer", "thumbnail_size"].contains opt_key then
    "basic_information/advanced/" ++ opt_key
  else if ["extruder_clearance_max_radius", "extruder_clearance_dist_to_rod",
      "extruder_clearance_height_to_rod",
      "extruder_clearance_height_to_lid"].contains opt_key then
    "basic_information/extruder_clearance/" ++ opt_key
  else if ["nozzle_type", "auxiliary_fan", "fan_direction", "support_chamber_temp_control",
      "support_air_filtration", "cooling_filter_enabled",
      "auto_disable_filter_on_overheat"].contains opt_key then
    "basic_information/accessory/" ++ opt_key
  else if ["machine_start_gcode", "machine_end_gcode", "printing_by_object_gcode",
      "before_layer_change_gcode", "layer_change_gcode", "time_lapse_gcode",
      "wrapping_detection_gcode", "change_filament_gcode", "machine_pause_gcode",
      "template_custom_gcode"].contains opt_key then
    "machine_gcode/" ++ opt_key
  else if ["machine_max_speed_x", "machine_max_speed_y", "machine_max_speed_z",
      "machine_max_speed_e"].contains opt_key then
    "motion_ability/speed/" ++ opt_key
  else if ["machine_max_acceleration_x", "machine_max_acceleration_y",
      "machine_max_acceleration_z", "machine_max_acceleration_e",
      "machine_max_acceleration_extruding", "machine_max_acceleration_retracting",
      "machine_max_acceleration_travel"].contains opt_key then
    "motion_ability/acceleration/" ++ opt_key
  else if ["machine_max_jerk_x", "machine_max_jerk_y", "machine_max_jerk_z",
      "machine_max_jerk_e"].contains opt_key then
    "motion_ability/jerk/" ++ opt_key
  else if opt_key = "printer_notes" then
    "notes/" ++ opt_key
  else
    "misc/" ++ opt_key

/-- Extruder count used by `publish_printer_config`
(MqttConfigPublisher.cpp:449-453).  Modelled from the spec: the source reads
the option through `option<ConfigOptionFloatsNullable>("nozzle_diameter")`,
whose class lives in PrintConfig.hpp outside this repository; per spec
section 4.4.4 the count is the length of the `nozzle_diameter` vector,
defaulting to 1 when absent. -/
def num_extruders (cfg : List (String × ConfigOption)) : Nat :=
  match cfg.lookup "nozzle_diameter" with
  | some (.floats vs) => vs.length
  | _ => 1

/-- The messages `publish_printer_config` emits for one `(key, option)`
entry of the config (MqttConfigPublisher.cpp:456-583): the per-extruder
branch when the key has an extruder group and the option is a vector,
otherwise the scalar branch under `config/printer/{get_printer_topic}`. -/
def printer_entry_msgs (reg : String → Option OptDef) (st : MqttState)
    (numExt : Nat) (k : String) (o : ConfigOption) : List OutMsg :=
  let grp := get_extruder_topic_group k
  if grp ≠ "" ∧ o.is_vector then
    (List.range numExt).flatMap (fun i =>
      match extruder_value_at o i with
      | some v =>
          publish_msgs st
            ("config/printer/extruder/" ++ toString i ++ "/" ++ grp ++ "/" ++ k)
            (serialize_value reg k v) true
      | none => [])
  else
    match scalar_any_value o with
    | some v =>
        publish_msgs st ("config/printer/" ++ get_printer_topic k)
          (serialize_value reg k v) true
    | none => []

/-- `MqttConfigPublisher::publish_printer_config`
(MqttConfigPublisher.cpp:438-584): nothing when not connected; otherwise the
`preset_name` envelope first, then the per-entry messages for every key of
the config in order. -/
def publish_printer_config (reg : String → Option OptDef) (st : MqttState)
    (cfg : List (String × ConfigOption)) (preset_name : String) : List OutMsg :=
  if st.connected then
    publish_msgs st "config/printer/preset_name"
      ("\x7b\"key\":\"preset_name\",\"value\":\"" ++ mqtt_json_escape preset_name
        ++ "\",\"type\":\"string\"\x7d") true
    ++ cfg.flatMap (fun e => printer_entry_msgs reg st (num_extruders cfg) e.1 e.2)
  else
    []

/-! ## HttpSlicerApi (HttpSlicerApi.cpp/.hpp) -/

/-- The anonymous-namespace `json_escape` of HttpSlicerApi.cpp (lines 26-40);
unlike the MQTT one it does not escape backspace or form feed. -/
def http_json_escape (s : String) : String :=
  String.join (s.data.map (fun c =>
    if c = '\"' then "\\\""
    else if c = '\\' then "\\\\"
    else if c = '\n' then "\\n"
    else if c = '\x0d' then "\\r"
    else if c = '\t' then "\\t"
    else String.singleton c))

/-- `status_to_json` (HttpSlicerApi.cpp:42-68): the cached status fields,
plus the `completed` sub-object only when `has_completed` is set. -/
def status_to_json (status : SlicingStatus) (has_completed : Bool)
    (completed : SlicingCompletedInfo) : String :=
  "\x7b\"percent\":" ++ toString status.percent
  ++ ",\"message\":\"" ++ http_json_escape status.text ++ "\""
  ++ ",\"flags\":" ++ toString status.flags
  ++ ",\"warning_step\":" ++ toString status.warning_step
  ++ (if has_completed then
        ",\"completed\":\x7b\"status\":"
        ++ (match completed.status with
            | .finished => "\"finished\""
            | .cancelled => "\"cancelled\""
            | .error => "\"error\"")
        ++ (if completed.error_message ≠ "" then
              ",\"error_message\":\"" ++ http_json_escape completed.error_message ++ "\""
            else "")
        ++ "\x7d"
      else "")
  ++ "\x7d"

/-- The server-side state of `HttpSlicerApi` relevant to the handlers:
whether `m_process` is non-null, and the mutex-guarded status cache
`m_last_status`, `m_last_completed`, `m_has_completed`
(HttpSlicerApi.hpp:87-97). -/
structure HttpApiState where
  has_process : Bool
  last_status : SlicingStatus
  last_completed : SlicingCompletedInfo
  has_completed : Bool
deriving DecidableEq, Repr

/-- An HTTP response: status code (httplib default 200) and body. -/
structure HttpResponse where
  status : Nat
  body : String
deriving DecidableEq, Repr

/-- The `SlicingStatus(0, "")` value the reset handler stores
(HttpSlicerApi.cpp:161, constructed with percent 0 and empty text). -/
def empty_status : SlicingStatus :=
  ⟨0, "", 0, 0⟩

/-- The `GET /api/status` handler (HttpSlicerApi.cpp:104-108): serialize the
cached status under the mutex; the state is unchanged. -/
def api_status (st : HttpApiState) : HttpResponse :=
  ⟨200, status_to_json st.last_status st.has_completed st.last_completed⟩

/-- The `POST /api/reset` handler (HttpSlicerApi.cpp:150-164): 500 when no
process is configured; otherwise reset the process, clear `m_has_completed`
and store the empty status. -/
def api_reset (st : HttpApiState) : HttpResponse × HttpApiState :=
  if st.has_process then
    (⟨200, "\x7b\"status\":\"reset\"\x7d"⟩,
     { st with has_completed := false, last_status := empty_status })
  else
    (⟨500, "\x7b\"error\":\"No process configured\"\x7d"⟩, st)

/-- The `POST /api/start` handler (HttpSlicerApi.cpp:111-130).  `start_ok`
is the boolean returned by `m_process->start()`; the third component
records whether `start()` was invoked at all. -/
def api_start (st : HttpApiState) (start_ok : Bool) :
    HttpResponse × HttpApiState × Bool :=
  if st.has_process then
    if start_ok then
      (⟨200, "\x7b\"status\":\"started\"\x7d"⟩, { st with has_completed := false }, true)
    else
      (⟨400, "\x7b\"error\":\"Could not start (already running or empty)\"\x7d"⟩, st, true)
  else
    (⟨500, "\x7b\"error\":\"No process configured\"\x7d"⟩, st, false)

/-- `HttpSlicerApi::update_status` (HttpSlicerApi.cpp:588-592). -/
def update_status (st : HttpApiState) (s : SlicingStatus) : HttpApiState :=
  { st with last_status := s }

/-- `HttpSlicerApi::update_completed` (HttpSlicerApi.cpp:594-599). -/
def update_completed (st : HttpApiState) (i : SlicingCompletedInfo) : HttpApiState :=
  { st with last_completed := i, has_completed := true }

/-! ## Helper lemmas -/

lemma filterMap_map_opt {α β : Type} (l : List (Option α)) (f : α → β) :
    l.filterMap (fun s => s.map f) = l.reduceOption.map f := by
  induction l with
  | nil => rfl
  | cons h t ih => cases h <;> simp [List.reduceOption, ih]

lemma count_filterMap_opt (l : List (Option Nat)) (ev : SlicingEvent) (p : Nat) :
    (l.filterMap (fun s => s.map (fun q => (q, ev)))).count (p, ev) = l.count (some p) := by
  induction l with
  | nil => rfl
  | cons h t ih =>
      cases h with
      | none => simpa using ih
      | some q =>
          by_cases hq : q = p <;>
            simp [List.count_cons, hq, ih]

lemma sweep_fst (l : List (Option Nat)) :
    (sweep l).1 = l.filter (fun o => o.isSome) := by
  induction l with
  | nil => rfl
  | cons h t ih => cases h <;> simp [sweep, ih]

lemma sweep_snd (l : List (Option Nat)) :
    (sweep l).2 = l.reduceOption := by
  induction l with
  | nil => rfl
  | cons h t ih => cases h <;> simp [sweep, List.reduceOption, ih]

lemma run_callbacks_eq (l : List (Option Nat)) :
    run_callbacks l = l.reduceOption := by
  induction l with
  | nil => rfl
  | cons h t ih => cases h <;> simp [run_callbacks, List.reduceOption, ih]

lemma length_filter_isSome (l : List (Option Nat)) :
    (l.filter (fun o => o.isSome)).length = l.length - l.count none := by
  induction l with
  | nil => rfl
  | cons h t ih =>
      cases h with
      | none => simpa [List.count_cons] using ih
      | some a =>
          have hle : t.count none ≤ t.length := List.count_le_length _ _
          simp [List.count_cons, ih, Nat.sub_add_comm hle]

lemma applyOps_cons (st : DispatcherState) (op : DispatcherOp)
    (rest : List DispatcherOp) :
    applyOps st (op :: rest) = applyOps (applyOp st op) rest :=
  rfl

lemma count_applyOp_no_add {st : DispatcherState} {s : SinkPtr} {op : DispatcherOp}
    (h0 : st.sinks.count s = 0) (h : op ≠ .add s) :
    ((applyOp st op).sinks.count s = 0) := by
  cases op with
  | add t =>
      by_cases ht : t.isNone
      · simpa [applyOp, add_sink, ht] using h0
      · have hts : t ≠ s := fun he => h (by rw [he])
        simp [applyOp, add_sink, ht, List.count_append, h0,
          List.count_singleton, hts]
  | remove t =>
      have : ((st.sinks.filter (fun x => decide (x ≠ t))).count s ≤ st.sinks.count s) :=
        (List.filter_sublist st.sinks).count_le s
      simp only [applyOp, remove_sink]
      omega
  | clear => simp [applyOp, clear_sinks]

lemma count_applyOps_no_add {ops : List DispatcherOp} {st : DispatcherState} {s : SinkPtr}
    (h0 : st.sinks.count s = 0) (h : ∀ x ∈ ops, x ≠ .add s) :
    ((applyOps st ops).sinks.count s = 0) := by
  induction ops generalizing st with
  | nil => simpa [applyOps] using h0
  | cons op rest ih =>
      have h1 : op ≠ .add s := h op (List.mem_cons_self _ _)
      have h2 : ∀ x ∈ rest, x ≠ .add s := fun x hx => h x (List.mem_cons_of_mem _ hx)
      rw [applyOps_cons]
      exact ih (count_applyOp_no_add h0 h1) h2

lemma count_applyOp_preserve {st : DispatcherState} {s : SinkPtr} {op : DispatcherOp}
    (h1 : op ≠ .add s) (h2 : op ≠ .remove s) (h3 : op ≠ .clear) :
    ((applyOp st op).sinks.count s = st.sinks.count s) := by
  cases op with
  | add t =>
      by_cases ht : t.isNone
      · simp [applyOp, add_sink, ht]
      · have hts : t ≠ s := fun he => h1 (by rw [he])
        simp [applyOp, add_sink, ht, List.count_append, List.count_singleton, hts]
  | remove t =>
      have hts : s ≠ t := fun he => h2 (by rw [he])
      simp only [applyOp, remove_sink]
      exact List.count_filter (by simpa using hts)
  | clear => exact absurd rfl h3

lemma count_applyOps_preserve {ops : List DispatcherOp} {st : DispatcherState} {s : SinkPtr}
    (h1 : ∀ x ∈ ops, x ≠ .add s) (h2 : ∀ x ∈ ops, x ≠ .remove s)
    (h3 : ∀ x ∈ ops, x ≠ .clear) :
    ((applyOps st ops).sinks.count s = st.sinks.count s) := by
  induction ops generalizing st with
  | nil => simp [applyOps]
  | cons op rest ih =>
      have e1 := h1 op (List.mem_cons_self _ _)
      have e2 := h2 op (List.mem_cons_self _ _)
      have e3 := h3 op (List.mem_cons_self _ _)
      have r1 : ∀ x ∈ rest, x ≠ .add s := fun x hx => h1 x (List.mem_cons_of_mem _ hx)
      have r2 : ∀ x ∈ rest, x ≠ .remove s := fun x hx => h2 x (List.mem_cons_of_mem _ hx)
      have r3 : ∀ x ∈ rest, x ≠ .clear := fun x hx => h3 x (List.mem_cons_of_mem _ hx)
      rw [applyOps_cons, ih r1 r2 r3, count_applyOp_preserve e1 e2 e3]

lemma no_null_applyOp {st : DispatcherState}
    (h : ∀ s ∈ st.sinks, s ≠ none) (op : DispatcherOp) :
    ∀ s ∈ (applyOp st op).sinks, s ≠ none := by
  cases op with
  | add t =>
      by_cases ht : t.isNone
      · simpa [applyOp, add_sink, ht] using h
      · intro s hs
        have hs2 : s ∈ st.sinks ∨ s = t := by simpa [applyOp, add_sink, ht] using hs
        rcases hs2 with hm | hm
        · exact h s hm
        · subst hm
          simpa [Option.isNone_iff_eq_none] using ht
  | remove t =>
      intro s hs
      have hs2 : s ∈ st.sinks ∧ ¬ s = t := by simpa [applyOp, remove_sink] using hs
      exact h s hs2.1
  | clear => simp [applyOp, clear_sinks]

lemma no_null_applyOps (ops : List DispatcherOp) {st : DispatcherState}
    (h : ∀ s ∈ st.sinks, s ≠ none) :
    ∀ s ∈ (applyOps st ops).sinks, s ≠ none := by
  induction ops generalizing st with
  | nil => simpa [applyOps] using h
  | cons op rest ih =>
      simpa [applyOps_cons] using ih (no_null_applyOp h op)

lemma length_filterMap_of_no_null {α : Type} {l : List (Option Nat)}
    (h : ∀ s ∈ l, s ≠ none) (f : Nat → α) :
    (l.filterMap (fun s => s.map f)).length = l.length := by
  induction l with
  | nil => rfl
  | cons hd t ih =>
      cases hd with
      | none => exact absurd rfl (h none (List.mem_cons_self _ _))
      | some q =>
          have := ih (fun s hs => h s (List.mem_cons_of_mem _ hs))
          simp [this]

/-! ## Claim theorems -/

/-- C5: for every bus state and every `(opt_key, value)`, `notify` calls
`on_config_change` exactly once on each alive listener in registration
order, erases the expired entries in place, leaves the callback list
untouched, then invokes each non-null callback in registration order; the
listener list shrinks by exactly the number of expired entries. -/
theorem bus_notify_sweep (st : BusState) (opt_key : String) (value : AnyValue) :
    (notify st opt_key value).listener_calls
        = st.listeners.reduceOption.map (fun l => (l, opt_key, value)) ∧
    (notify st opt_key value).state.listeners
        = st.listeners.filter (fun o => o.isSome) ∧
    (notify st opt_key value).state.callbacks = st.callbacks ∧
    (notify st opt_key value).state.enabled = st.enabled ∧
    (notify st opt_key value).callback_calls
        = st.callbacks.reduceOption.map (fun c => (c, opt_key, value)) ∧
    (notify st opt_key value).state.listeners.length
        = st.listeners.length - st.listeners.count none := by
  refine ⟨?_, ?_, rfl, rfl, ?_, ?_⟩
  · simp [notify, sweep_snd]
  · simp [notify, sweep_fst]
  · simp [notify, run_callbacks_eq]
  · simp [notify, sweep_fst, length_filter_isSome]

/-- C4: the claim says a disabled bus makes `notify` a no-op, but the source
of `ConfigChangeDispatcher::notify` never consults `m_enabled`: with the bus
disabled via `set_enabled(false)`, a live listener and a non-null callback
are still invoked. -/
theorem bus_notify_ignores_disabled :
    is_enabled (set_enabled ⟨[some 7], [some 4], true⟩ false) = false ∧
    (notify (set_enabled ⟨[some 7], [some 4], true⟩ false) "layer_height"
        (AnyValue.bool true)).listener_calls
      = [(7, "layer_height", AnyValue.bool true)] ∧
    (notify (set_enabled ⟨[some 7], [some 4], true⟩ false) "layer_height"
        (AnyValue.bool true)).callback_calls
      = [(4, "layer_height", AnyValue.bool true)] :=
  ⟨rfl, rfl, rfl⟩

/-- C10: starting from the empty dispatcher, any sequence of `add_sink`,
`remove_sink` and `clear_sinks` calls leaves no null entry in the sink list
(`add_sink` discards a null argument), so the `if (sink)` guard of the event
methods never takes its false branch: the guarded dispatch performs one
invocation per list entry. -/
theorem dispatcher_no_null_sinks (ops : List DispatcherOp) (ev : SlicingEvent) :
    (∀ s ∈ (applyOps ⟨[]⟩ ops).sinks, s ≠ none) ∧
    (dispatch (applyOps ⟨[]⟩ ops) ev).length = (applyOps ⟨[]⟩ ops).sinks.length := by
  have hnn : ∀ s ∈ (applyOps ⟨[]⟩ ops).sinks, s ≠ none :=
    no_null_applyOps ops (by simp)
  exact ⟨hnn, length_filterMap_of_no_null hnn _⟩

/-- C6: `publish` returns false and hands nothing to the MQTT client when
the client object is absent or the connection flag is unset; when both are
present it publishes the payload to `m_topic_prefix ++ topic` at QoS 1 with
the requested retained flag and returns the enqueue result. -/
theorem mqtt_publish_guard (st : MqttState) (enq : OutMsg → Bool)
    (topic payload : String) (retained : Bool) :
    (st.has_client = false ∨ st.connected = false →
      publish st enq topic payload retained = (false, [])) ∧
    (st.has_client = true → st.connected = true →
      publish st enq topic payload retained =
        (enq ⟨st.pfx ++ topic, payload, 1, retained⟩,
         [⟨st.pfx ++ topic, payload, 1, retained⟩])) := by
  constructor
  · intro h
    rcases h with h | h <;> simp [publish, h]
  · intro h1 h2
    simp [publish, h1, h2]

/-- Witness for C6: a disconnected state publishes nothing and returns
false; a connected state with a client enqueues one QoS-1 message under the
prefixed topic. -/
theorem mqtt_publish_guard_witness :
    publish ⟨false, true, "slicer/"⟩ (fun _ => true) "status" "p" true = (false, []) ∧
    publish ⟨true, true, "slicer/"⟩ (fun _ => true) "status" "p" true
      = (true, [⟨"slicer/status", "p", 1, true⟩]) :=
  ⟨(mqtt_publish_guard ⟨false, true, "slicer/"⟩ (fun _ => true) "status" "p" true).1
      (Or.inl rfl),
   (mqtt_publish_guard ⟨true, true, "slicer/"⟩ (fun _ => true) "status" "p" true).2
      rfl rfl⟩

/-- C8: `GET /api/status` serializes exactly the cached status; after
`POST /api/reset` (with a process configured) the completion flag is false
and the cached percent is 0, so the next `GET /api/status` reports percent 0
with no `completed` sub-object. -/
theorem http_status_cache (st : HttpApiState) (s : SlicingStatus)
    (h : st.has_process = true) :
    (api_status (update_status st s)).body
        = status_to_json s st.has_completed st.last_completed ∧
    (api_reset st).2.has_completed = false ∧
    (api_reset st).2.last_status.percent = 0 ∧
    (api_status (api_reset st).2).body
        = "\x7b\"percent\":0,\"message\":\"\",\"flags\":0,\"warning_step\":0\x7d" := by
  have hr : (api_reset st).2
      = { st with has_completed := false, last_status := empty_status } := by
    simp [api_reset, h]
  refine ⟨rfl, by rw [hr], by rw [hr]; rfl, ?_⟩
  rw [hr]
  rfl

/-- Witness for C8: resetting a concrete state carrying percent 50 and a
seen completion yields a status body with percent 0 and no completed
object. -/
theorem http_status_cache_witness :
    (api_status (api_reset ⟨true, ⟨50, "slicing", 0, 0⟩,
        ⟨.finished, "", [], false, false⟩, true⟩).2).body
      = "\x7b\"percent\":0,\"message\":\"\",\"flags\":0,\"warning_step\":0\x7d" :=
  (http_status_cache ⟨true, ⟨50, "slicing", 0, 0⟩,
      ⟨.finished, "", [], false, false⟩, true⟩ ⟨42, "x", 0, 0⟩ rfl).2.2.2

/-- C9: with a process configured, `POST /api/start` always invokes
`m_process->start()`; on success it clears the cached completion flag and
answers 200, and when the process declines it answers 400 and leaves the
cache unchanged. -/
theorem http_start_behavior (st : HttpApiState) (r : Bool)
    (h : st.has_process = true) :
    (api_start st r).2.2 = true ∧
    (r = true → (api_start st r).1.status = 200 ∧
      (api_start st r).2.1.has_completed = false) ∧
    (r = false → (api_start st r).1.status = 400 ∧ (api_start st r).2.1 = st) := by
  cases r <;> simp [api_start, h]

/-- Witness for C9: a declined start on a concrete state answers 400 with
the cache unchanged, and an accepted start answers 200 with the completion
flag cleared. -/
theorem http_start_behavior_witness :
    (api_start ⟨true, ⟨50, "slicing", 0, 0⟩,
        ⟨.finished, "", [], false, false⟩, true⟩ false).1.status = 400 ∧
    (api_start ⟨true, ⟨50, "slicing", 0, 0⟩,
        ⟨.finished, "", [], false, false⟩, true⟩ true).2.1.has_completed = false :=
  ⟨((http_start_behavior ⟨true, ⟨50, "slicing", 0, 0⟩,
      ⟨.finished, "", [], false, false⟩, true⟩ false rfl).2.2 rfl).1,
   ((http_start_behavior ⟨true, ⟨50, "slicing", 0, 0⟩,
      ⟨.finished, "", [], false, false⟩, true⟩ true rfl).2.1 rfl).2⟩

/-- C1: the event methods invoke every installed sink exactly once per list
entry, in installation order; a sink added once and neither removed nor
cleared before a dispatch receives that event exactly once; and after
`remove_sink(s)` (which removes all references equal to `s`) or
`clear_sinks()`, `s` receives no further events as long as it is not
re-added. -/
theorem slicing_dispatcher_fanout (p : Nat) (ev : SlicingEvent)
    (pre post : List DispatcherOp)
    (hpre : ∀ x ∈ pre, x ≠ .add (some p))
    (hpost_add : ∀ x ∈ post, x ≠ .add (some p))
    (hpost_rm : ∀ x ∈ post, x ≠ .remove (some p))
    (hpost_cl : ∀ x ∈ post, x ≠ .clear) :
    (∀ st : DispatcherState,
      dispatch st ev = st.sinks.reduceOption.map (fun q => (q, ev))) ∧
    ((dispatch (applyOps ⟨[]⟩ (pre ++ .add (some p) :: post)) ev).count (p, ev) = 1) ∧
    (∀ (st : DispatcherState) (rest : List DispatcherOp),
      (∀ x ∈ rest, x ≠ .add (some p)) →
      (p, ev) ∉ dispatch (applyOps (remove_sink st (some p)) rest) ev ∧
      (p, ev) ∉ dispatch (applyOps (clear_sinks st) rest) ev) := by
  refine ⟨fun st => filterMap_map_opt st.sinks _, ?_, ?_⟩
  · rw [show dispatch (applyOps ⟨[]⟩ (pre ++ .add (some p) :: post)) ev
        = (applyOps ⟨[]⟩ (pre ++ .add (some p) :: post)).sinks.filterMap
            (fun s => s.map (fun q => (q, ev))) from rfl,
      count_filterMap_opt]
    have hsplit : applyOps ⟨[]⟩ (pre ++ .add (some p) :: post)
        = applyOps (applyOp (applyOps ⟨[]⟩ pre) (.add (some p))) post := by
      simp [applyOps, List.foldl_append]
    have hzero : ((applyOps ⟨[]⟩ pre).sinks.count (some p) = 0) :=
      count_applyOps_no_add (by simp) hpre
    have hone : ((applyOp (applyOps ⟨[]⟩ pre) (.add (some p))).sinks.count (some p) = 1) := by
      simp [applyOp, add_sink, List.count_append, hzero]
    rw [hsplit, count_applyOps_preserve hpost_add hpost_rm hpost_cl, hone]
  · intro st rest hrest
    constructor
    · have h0 : ((remove_sink st (some p)).sinks.count (some p) = 0) := by
        simp [remove_sink, List.count_eq_zero, List.mem_filter]
      have := count_applyOps_no_add h0 hrest
      rw [show dispatch (applyOps (remove_sink st (some p)) rest) ev
          = (applyOps (remove_sink st (some p)) rest).sinks.filterMap
              (fun s => s.map (fun q => (q, ev))) from rfl]
      rw [← List.count_eq_zero, count_filterMap_opt, this]
    · have h0 : ((clear_sinks st).sinks.count (some p) = 0) := by
        simp [clear_sinks]
      have := count_applyOps_no_add h0 hrest
      rw [show dispatch (applyOps (clear_sinks st) rest) ev
          = (applyOps (clear_sinks st) rest).sinks.filterMap
              (fun s => s.map (fun q => (q, ev))) from rfl]
      rw [← List.count_eq_zero, count_filterMap_opt, this]

/-- Witness for C1: with sink 5 installed first, sink 3 installed second and
sink 5 later removed, dispatching an event delivers it to sink 3 exactly
once. -/
theorem slicing_dispatcher_fanout_witness :
    (dispatch (applyOps ⟨[]⟩ ([.add (some 5)] ++ .add (some 3) :: [.remove (some 5)]))
        .export_began).count (3, .export_began) = 1 :=
  (slicing_dispatcher_fanout 3 .export_began [.add (some 5)] [.remove (some 5)]
    (by decide) (by decide) (by decide) (by decide)).2.1

/-- C3: `get_topic` is a pure function of the key determined by the routing
table: a key present in the table maps to `config/{page}/{group}/{key}`, an
absent key to `config/unknown/{key}`, and `publish_change` on a connected
publisher with prefix `slicer/` publishes `layer_height` under
`slicer/config/quality/layer_height/layer_height`. -/
theorem mqtt_topic_routing :
    (∀ k₁ k₂ : String, k₁ = k₂ → get_topic k₁ = get_topic k₂) ∧
    (∀ k p g, init_topic_map.find? (fun e => e.1 = k) = some (k, p, g) →
      get_topic k = "config/" ++ p ++ "/" ++ g ++ "/" ++ k) ∧
    (∀ k, init_topic_map.find? (fun e => e.1 = k) = none →
      get_topic k = "config/unknown/" ++ k) ∧
    (∀ (reg : String → Option OptDef) (st : MqttState) (v : AnyValue),
      st.connected = true → st.has_client = true → st.pfx = "slicer/" →
      publish_change reg st "layer_height" v
        = [⟨"slicer/config/quality/layer_height/layer_height",
            serialize_value reg "layer_height" v, 1, true⟩]) := by
  refine ⟨fun k₁ k₂ h => by rw [h], ?_, ?_, ?_⟩
  · intro k p g h
    simp [get_topic, h]
  · intro k h
    simp [get_topic, h]
  · intro reg st v hco hcl hpx
    obtain ⟨a, b, c⟩ := st
    simp only at hco hcl hpx
    subst hco hcl hpx
    rfl

/-- Witness for C3: a concrete connected publisher with the default prefix
publishes a `layer_height` change under the fully routed topic. -/
theorem mqtt_topic_routing_witness :
    publish_change (fun _ => none) ⟨true, true, "slicer/"⟩ "layer_height"
        (AnyValue.bool true)
      = [⟨"slicer/config/quality/layer_height/layer_height",
          serialize_value (fun _ => none) "layer_height" (AnyValue.bool true), 1, true⟩] :=
  mqtt_topic_routing.2.2.2 (fun _ => none) ⟨true, true, "slicer/"⟩
    (AnyValue.bool true) rfl rfl rfl

lemma mem_ite_nil {α : Type} {c : Prop} [Decidable c] {a : α} {l : List α} :
    a ∈ (if c then l else []) ↔ c ∧ a ∈ l := by
  by_cases h : c <;> simp [h]

lemma min_mem_meta_fields (d : OptDef) (q : Rat) :
    MetaField.min q ∈ meta_fields d ↔
      ((d.min ≠ INT_MIN_D ∧ d.min ≠ -FLT_MAX_D) ∧ q = d.min) := by
  cases hek : d.enum_keys_map <;>
    simp [meta_fields, hek, mem_ite_nil, and_comm]

lemma max_mem_meta_fields (d : OptDef) (q : Rat) :
    MetaField.max q ∈ meta_fields d ↔
      ((d.max ≠ INT_MAX_D ∧ d.max ≠ FLT_MAX_D) ∧ q = d.max) := by
  cases hek : d.enum_keys_map <;>
    simp [meta_fields, hek, mem_ite_nil, and_comm]

/-- C7: when the registry returns a definition for the key, the envelope
carries that definition as its `meta` object, whose `min` field appears if
and only if the definition min differs from both unbounded sentinels
(`INT_MIN` and `-FLT_MAX`), and likewise `max` against `INT_MAX` and
`FLT_MAX`; a field that does appear carries the definition value, so the
sentinel values themselves are never emitted. -/
theorem mqtt_meta_bounds (reg : String → Option OptDef) (k : String)
    (v : AnyValue) (d : OptDef) (h : reg k = some d) :
    serialize_value reg k v
      = "\x7b\"key\":\"" ++ mqtt_json_escape k ++ "\"," ++ render_value v
          ++ serialize_meta d ++ "\x7d" ∧
    ((∃ q, MetaField.min q ∈ meta_fields d) ↔
        (d.min ≠ INT_MIN_D ∧ d.min ≠ -FLT_MAX_D)) ∧
    ((∃ q, MetaField.max q ∈ meta_fields d) ↔
        (d.max ≠ INT_MAX_D ∧ d.max ≠ FLT_MAX_D)) ∧
    (∀ q, MetaField.min q ∈ meta_fields d → q = d.min) ∧
    (∀ q, MetaField.max q ∈ meta_fields d → q = d.max) := by
  refine ⟨by simp [serialize_value, h], ?_, ?_, ?_, ?_⟩
  · constructor
    · rintro ⟨q, hq⟩
      exact ((min_mem_meta_fields d q).1 hq).1
    · intro hc
      exact ⟨d.min, (min_mem_meta_fields d d.min).2 ⟨hc, rfl⟩⟩
  · constructor
    · rintro ⟨q, hq⟩
      exact ((max_mem_meta_fields d q).1 hq).1
    · intro hc
      exact ⟨d.max, (max_mem_meta_fields d d.max).2 ⟨hc, rfl⟩⟩
  · intro q hq
    exact ((min_mem_meta_fields d q).1 hq).2
  · intro q hq
    exact ((max_mem_meta_fields d q).1 hq).2

/-- Witness for C7: a definition with min 0 and max equal to the `FLT_MAX`
sentinel emits a `min` field and no `max` field. -/
theorem mqtt_meta_bounds_witness :
    (∃ q, MetaField.min q ∈ meta_fields
        ⟨"Layer height", "Quality", "tip", "mm", 0, FLT_MAX_D, none, [], []⟩) ∧
    ¬ (∃ q, MetaField.max q ∈ meta_fields
        ⟨"Layer height", "Quality", "tip", "mm", 0, FLT_MAX_D, none, [], []⟩) :=
  have h := mqtt_meta_bounds (fun _ => some
      ⟨"Layer height", "Quality", "tip", "mm", 0, FLT_MAX_D, none, [], []⟩)
    "layer_height" (AnyValue.bool true)
    ⟨"Layer height", "Quality", "tip", "mm", 0, FLT_MAX_D, none, [], []⟩ rfl
  ⟨h.2.1.mpr ⟨by norm_num [INT_MIN_D], by norm_num [FLT_MAX_D]⟩,
   fun he => (h.2.2.1.1 he).2 rfl⟩

lemma range_flatMap_eq_map_min {β : Type} (N L : Nat) (body : Nat → List β)
    (g : Nat → β) (hbody : ∀ i, body i = if i < L then [g i] else []) :
    (List.range N).flatMap body = (List.range (min N L)).map g := by
  induction N with
  | zero => simp
  | succ n ih =>
      by_cases hn : n < L
      · have hmin : min (n + 1) L = min n L + 1 := by omega
        rw [List.range_succ, hmin, List.range_succ]
        simp [ih, hbody n, hn, Nat.min_eq_left hn.le]
      · have hmin : min (n + 1) L = min n L := by omega
        rw [List.range_succ, hmin]
        simp [ih, hbody n, hn]

lemma entry_msgs_vector_case {α : Type} (reg : String → Option OptDef)
    (st : MqttState) (hcl : st.has_client = true) (hco : st.connected = true)
    (N : Nat) (k grp : String) (vs : List α) (f : α → AnyValue) :
    ((List.range N).flatMap (fun i =>
      match (vs.get? i).map f with
      | some v =>
          publish_msgs st
            ("config/printer/extruder/" ++ toString i ++ "/" ++ grp ++ "/" ++ k)
            (serialize_value reg k v) true
      | none => []))
    = (List.range (min N vs.length)).map (fun i =>
        ⟨st.pfx ++ ("config/printer/extruder/" ++ toString i ++ "/" ++ grp ++ "/" ++ k),
         serialize_value reg k (((vs.get? i).map f).getD AnyValue.other), 1, true⟩) := by
  apply range_flatMap_eq_map_min
  intro i
  cases h : vs.get? i with
  | some v =>
      obtain ⟨hlt, -⟩ := List.get?_eq_some.1 h
      simp [publish_msgs, hcl, hco, hlt]
  | none =>
      have hge : ¬ i < vs.length := by
        have := List.get?_eq_none.1 h
        omega
      simp [hge]

lemma is_vector_of_vector_len {o : ConfigOption} {L : Nat}
    (h : vector_len o = some L) : o.is_vector = true := by
  cases o <;> simp_all [vector_len, ConfigOption.is_vector]

/-- C2: on a connected publisher, for a key in one of the per-extruder
groups holding a supported vector value of length `L`,
`publish_printer_config` emits exactly `min (num_extruders cfg) L` publishes
for that entry, one per extruder index on topic
`config/printer/extruder/{i}/{group}/{key}` and nothing else (so never an
aggregated publish); the extruder count is the length of the
`nozzle_diameter` vector; and the full publish is the `preset_name` envelope
followed by the per-entry messages of every key in order. -/
theorem mqtt_printer_config_per_extruder
    (reg : String → Option OptDef) (st : MqttState)
    (cfg : List (String × ConfigOption)) (preset_name k : String)
    (o : ConfigOption) (L : Nat)
    (hcl : st.has_client = true) (hco : st.connected = true)
    (hgrp : get_extruder_topic_group k ≠ "")
    (hvec : vector_len o = some L) :
    printer_entry_msgs reg st (num_extruders cfg) k o
      = (List.range (min (num_extruders cfg) L)).map (fun i =>
          ⟨st.pfx ++ ("config/printer/extruder/" ++ toString i ++ "/"
              ++ get_extruder_topic_group k ++ "/" ++ k),
           serialize_value reg k ((extruder_value_at o i).getD AnyValue.other),
           1, true⟩) ∧
    (printer_entry_msgs reg st (num_extruders cfg) k o).length
        = min (num_extruders cfg) L ∧
    (∀ m ∈ printer_entry_msgs reg st (num_extruders cfg) k o,
      ∃ i, i < min (num_extruders cfg) L ∧
        m.topic = st.pfx ++ ("config/printer/extruder/" ++ toString i ++ "/"
            ++ get_extruder_topic_group k ++ "/" ++ k)) ∧
    (∀ nd, cfg.lookup "nozzle_diameter" = some (.floats nd) →
      num_extruders cfg = nd.length) ∧
    publish_printer_config reg st cfg preset_name
      = publish_msgs st "config/printer/preset_name"
          ("\x7b\"key\":\"preset_name\",\"value\":\"" ++ mqtt_json_escape preset_name
            ++ "\",\"type\":\"string\"\x7d") true
        ++ cfg.flatMap (fun e => printer_entry_msgs reg st (num_extruders cfg) e.1 e.2) := by
  have hvo := is_vector_of_vector_len hvec
  have hmain : printer_entry_msgs reg st (num_extruders cfg) k o
      = (List.range (min (num_extruders cfg) L)).map (fun i =>
          ⟨st.pfx ++ ("config/printer/extruder/" ++ toString i ++ "/"
              ++ get_extruder_topic_group k ++ "/" ++ k),
           serialize_value reg k ((extruder_value_at o i).getD AnyValue.other),
           1, true⟩) := by
    cases o with
    | floats vs =>
        obtain rfl : vs.length = L := by simpa [vector_len] using hvec
        simpa [printer_entry_msgs, hgrp, ConfigOption.is_vector, extruder_value_at]
          using entry_msgs_vector_case reg st hcl hco (num_extruders cfg) k
            (get_extruder_topic_group k) vs AnyValue.float
    | percents vs =>
        obtain rfl : vs.length = L := by simpa [vector_len] using hvec
        simpa [printer_entry_msgs, hgrp, ConfigOption.is_vector, extruder_value_at]
          using entry_msgs_vector_case reg st hcl hco (num_extruders cfg) k
            (get_extruder_topic_group k) vs AnyValue.float
    | ints vs =>
        obtain rfl : vs.length = L := by simpa [vector_len] using hvec
        simpa [printer_entry_msgs, hgrp, ConfigOption.is_vector, extruder_value_at]
          using entry_msgs_vector_case reg st hcl hco (num_extruders cfg) k
            (get_extruder_topic_group k) vs AnyValue.int
    | bools vs =>
        obtain rfl : vs.length = L := by simpa [vector_len] using hvec
        simpa [printer_entry_msgs, hgrp, ConfigOption.is_vector, extruder_value_at]
          using entry_msgs_vector_case reg st hcl hco (num_extruders cfg) k
            (get_extruder_topic_group k) vs AnyValue.bool
    | strings vs =>
        obtain rfl : vs.length = L := by simpa [vector_len] using hvec
        simpa [printer_entry_msgs, hgrp, ConfigOption.is_vector, extruder_value_at]
          using entry_msgs_vector_case reg st hcl hco (num_extruders cfg) k
            (get_extruder_topic_group k) vs AnyValue.string
    | points vs =>
        obtain rfl : vs.length = L := by simpa [vector_len] using hvec
        simpa [printer_entry_msgs, hgrp, ConfigOption.is_vector, extruder_value_at]
          using entry_msgs_vector_case reg st hcl hco (num_extruders cfg) k
            (get_extruder_topic_group k) vs
            (fun p => AnyValue.string (render_num p.1 ++ "," ++ render_num p.2))
    | bool b => simp [vector_len] at hvec
    | int i => simp [vector_len] at hvec
    | float f => simp [vector_len] at hvec
    | percent f => simp [vector_len] at hvec
    | string s => simp [vector_len] at hvec
    | floatOrPercent f p => simp [vector_len] at hvec
    | enum i => simp [vector_len] at hvec
    | other v => simp [vector_len] at hvec
  refine ⟨hmain, ?_, ?_, ?_, ?_⟩
  · rw [hmain]
    simp
  · rw [hmain]
    intro m hm
    obtain ⟨i, hi, rfl⟩ := List.mem_map.1 hm
    exact ⟨i, List.mem_range.1 hi, rfl⟩
  · intro nd h
    simp [num_extruders, h]
  · simp [publish_printer_config, hco]

/-- Witness for C2: a two-extruder config (nozzle_diameter of length 2) with
`retraction_length = [1, 3/2]` yields exactly `min 2 2 = 2` per-extruder
publishes for that key. -/
theorem mqtt_printer_config_per_extruder_witness :
    (printer_entry_msgs (fun _ => none) ⟨true, true, "slicer/"⟩
        (num_extruders [("nozzle_diameter", ConfigOption.floats [2/5, 3/5]),
          ("retraction_length", ConfigOption.floats [1, 3/2])])
        "retraction_length" (ConfigOption.floats [1, 3/2])).length
      = min (num_extruders [("nozzle_diameter", ConfigOption.floats [2/5, 3/5]),
          ("retraction_length", ConfigOption.floats [1, 3/2])]) 2 :=
  (mqtt_printer_config_per_extruder (fun _ => none) ⟨true, true, "slicer/"⟩
    [("nozzle_diameter", ConfigOption.floats [2/5, 3/5]),
     ("retraction_length", ConfigOption.floats [1, 3/2])]
    "Preset" "retraction_length" (ConfigOption.floats [1, 3/2]) 2
    rfl rfl (by decide) rfl).2.1

end CorvusPrint
